import Mathlib

/-!
Verification of the smart_vabble on-ledger programs and orchestration agents.

Each namespace embeds one source component:
* `InvestorShare` embeds `contracts/InvestorShare.py` (per-invoice share ledger);
* `RegistryV2` embeds `contracts/ReceivableRegistryV2.py` (status machine);
* `DDRegistry` embeds `contracts/DDRegistry.py` (due-diligence flags);
* `RiskAgent` embeds `agents/risk_agent.py` (deterministic scoring);
* `BaseAgent` embeds `agents/base_agent.py` (mock-mode invoke/call);
* `OnboardingAgent` embeds `agents/onboarding_agent.py` (participant store);
* `SettlementAgent` embeds `agents/settlement_agent.py`;
* `Contracts` records the public operation surface of the nine programs.

Storage cells holding integers or strings are modelled as total functions
from keys, with 0 / "" standing for the absent-key sentinel the NEO storage
API returns (`storage.get` of a missing key yields an empty byte string,
and `_get_amount` maps that to 0).
-/

/-- Pointwise update of a storage map, modelling `storage.put(key, value)`. -/
def upd {β : Type} (f : String → β) (k : String) (v : β) : String → β :=
  fun i => if i = k then v else f i

theorem upd_same {β : Type} (f : String → β) (k : String) (v : β) : upd f k v k = v := by
  simp [upd]

theorem upd_other {β : Type} (f : String → β) (k : String) (v : β) (i : String)
    (h : i ≠ k) : upd f k v i = f i := by
  simp [upd, h]

namespace InvestorShare

/-- Storage of `InvestorShare.py`, restricted to a single invoice id
(the claims quantify over operation sequences on one invoice).
`alloc` and `red` are the per-investor cells under the alloc/redeem
key spaces, `totalAlloc` and `totalRed` the invoice-level running
totals, and `dom` is the (ghost) finite set of investors whose cells
have ever been written. -/
structure ShareState where
  alloc : String → Int
  red : String → Int
  dom : Finset String
  totalAlloc : Int
  totalRed : Int

/-- Empty storage: every `storage.get` returns the absent sentinel, read as 0. -/
def ShareState.empty : ShareState :=
  { alloc := fun _ => 0, red := fun _ => 0, dom := ∅, totalAlloc := 0, totalRed := 0 }

/-- Embeds `allocate(invoice_id, investor, amount)`. -/
def allocate (s : ShareState) (investor : String) (amount : Int) : Bool × ShareState :=
  if amount ≤ 0 then (false, s)
  else
    (true,
      { alloc := upd s.alloc investor (s.alloc investor + amount)
        red := s.red
        dom := insert investor s.dom
        totalAlloc := s.totalAlloc + amount
        totalRed := s.totalRed })

/-- Embeds `transfer(invoice_id, from_investor, to_investor, amount)`.
The two `_put_amount` calls are sequential, so the read of the
destination cell sees the already-decremented source cell when the two
investors coincide. -/
def transfer (s : ShareState) (from_investor to_investor : String) (amount : Int) :
    Bool × ShareState :=
  if amount ≤ 0 then (false, s)
  else
    let from_alloc := s.alloc from_investor
    let from_redeemed := s.red from_investor
    let available := from_alloc - from_redeemed
    if available < amount then (false, s)
    else
      let alloc1 := upd s.alloc from_investor (from_alloc - amount)
      (true,
        { alloc := upd alloc1 to_investor (alloc1 to_investor + amount)
          red := s.red
          dom := insert to_investor (insert from_investor s.dom)
          totalAlloc := s.totalAlloc
          totalRed := s.totalRed })

/-- Embeds `redeem(invoice_id, investor, amount)`. -/
def redeem (s : ShareState) (investor : String) (amount : Int) : Bool × ShareState :=
  if amount ≤ 0 then (false, s)
  else
    let alloc := s.alloc investor
    let redeemed := s.red investor
    if alloc - redeemed < amount then (false, s)
    else
      (true,
        { alloc := s.alloc
          red := upd s.red investor (redeemed + amount)
          dom := insert investor s.dom
          totalAlloc := s.totalAlloc
          totalRed := s.totalRed + amount })

/-- Embeds the getter `total_allocated(invoice_id)`. -/
def total_allocated (s : ShareState) : Int := s.totalAlloc

/-- Embeds the getter `total_claimed(invoice_id)`. -/
def total_claimed (s : ShareState) : Int := s.totalRed

/-- One call against the share ledger of a fixed invoice. -/
inductive ShareOp where
  | allocOp (investor : String) (amount : Int)
  | transferOp (from_investor to_investor : String) (amount : Int)
  | redeemOp (investor : String) (amount : Int)

/-- Applies one call, keeping only the post-state. -/
def applyShareOp (s : ShareState) (op : ShareOp) : ShareState :=
  match op with
  | .allocOp investor amount => (allocate s investor amount).2
  | .transferOp f t amount => (transfer s f t amount).2
  | .redeemOp investor amount => (redeem s investor amount).2

/-- Runs a sequence of calls from empty storage. -/
def runShare (ops : List ShareOp) : ShareState :=
  ops.foldl applyShareOp ShareState.empty

/-- The share-ledger invariant: written cells are tracked by `dom`,
unwritten cells read 0, redemptions are nonnegative and bounded by
allocations, and the per-investor cells sum to the invoice totals. -/
structure ShareInv (s : ShareState) : Prop where
  support_alloc : ∀ i, i ∉ s.dom → s.alloc i = 0
  support_red : ∀ i, i ∉ s.dom → s.red i = 0
  red_nonneg : ∀ i, 0 ≤ s.red i
  red_le_alloc : ∀ i, s.red i ≤ s.alloc i
  sum_alloc : ∑ i ∈ s.dom, s.alloc i = s.totalAlloc
  sum_red : ∑ i ∈ s.dom, s.red i = s.totalRed

theorem sum_upd_of_support (f : String → Int) (dom : Finset String) (a : String) (v : Int)
    (hsupp : ∀ i, i ∉ dom → f i = 0) :
    ∑ i ∈ insert a dom, upd f a v i = (∑ i ∈ dom, f i) + v - f a := by
  by_cases ha : a ∈ dom
  · rw [Finset.insert_eq_self.mpr ha]
    rw [← Finset.insert_erase ha, Finset.sum_insert (Finset.not_mem_erase a dom),
      Finset.sum_insert (Finset.not_mem_erase a dom), upd_same]
    have hcong : ∑ i ∈ dom.erase a, upd f a v i = ∑ i ∈ dom.erase a, f i :=
      Finset.sum_congr rfl fun i hi =>
        upd_other f a v i (Finset.ne_of_mem_erase hi)
    rw [hcong]; ring
  · rw [Finset.sum_insert ha, upd_same]
    have hcong : ∑ i ∈ dom, upd f a v i = ∑ i ∈ dom, f i :=
      Finset.sum_congr rfl fun i hi =>
        upd_other f a v i (by rintro rfl; exact ha hi)
    rw [hcong, hsupp a ha]; ring

theorem sum_insert_of_support (f : String → Int) (dom : Finset String) (a : String)
    (hsupp : ∀ i, i ∉ dom → f i = 0) :
    ∑ i ∈ insert a dom, f i = ∑ i ∈ dom, f i := by
  by_cases ha : a ∈ dom
  · rw [Finset.insert_eq_self.mpr ha]
  · rw [Finset.sum_insert ha, hsupp a ha, zero_add]

theorem shareInv_empty : ShareInv ShareState.empty := by
  constructor <;> simp [ShareState.empty]

theorem shareInv_allocate (s : ShareState) (investor : String) (amount : Int)
    (h : ShareInv s) : ShareInv (allocate s investor amount).2 := by
  unfold allocate
  by_cases hamt : amount ≤ 0
  · simpa [hamt] using h
  · simp only [hamt, if_false]
    have hpos : 0 < amount := lt_of_not_le hamt
    refine ⟨?_, ?_, ?_, ?_, ?_, ?_⟩
    all_goals dsimp only
    · intro i hi
      simp only [Finset.mem_insert, not_or] at hi
      rw [upd_other _ _ _ _ hi.1]
      exact h.support_alloc i hi.2
    · intro i hi
      simp only [Finset.mem_insert, not_or] at hi
      exact h.support_red i hi.2
    · intro i; exact h.red_nonneg i
    · intro i
      by_cases hik : i = investor
      · subst hik
        rw [upd_same]
        have := h.red_le_alloc i
        linarith
      · rw [upd_other _ _ _ _ hik]
        exact h.red_le_alloc i
    · rw [sum_upd_of_support s.alloc s.dom investor _ h.support_alloc, h.sum_alloc]
      ring
    · rw [sum_insert_of_support s.red s.dom investor h.support_red, h.sum_red]

theorem shareInv_transfer (s : ShareState) (f t : String) (amount : Int)
    (h : ShareInv s) : ShareInv (transfer s f t amount).2 := by
  unfold transfer
  by_cases hamt : amount ≤ 0
  · simpa [hamt] using h
  · simp only [hamt, if_false]
    by_cases havail : s.alloc f - s.red f < amount
    · simpa [havail] using h
    · simp only [havail, if_false]
      have hpos : 0 < amount := lt_of_not_le hamt
      have hav : amount ≤ s.alloc f - s.red f := le_of_not_lt havail
      set g := upd s.alloc f (s.alloc f - amount) with hg
      have hg_supp : ∀ i, i ∉ insert f s.dom → g i = 0 := by
        intro i hi
        simp only [Finset.mem_insert, not_or] at hi
        rw [hg, upd_other _ _ _ _ hi.1]
        exact h.support_alloc i hi.2
      refine ⟨?_, ?_, ?_, ?_, ?_, ?_⟩
      all_goals dsimp only
      · intro i hi
        simp only [Finset.mem_insert, not_or] at hi
        rw [upd_other _ _ _ _ hi.1]
        exact hg_supp i (by simp [hi.2.1, hi.2.2])
      · intro i hi
        simp only [Finset.mem_insert, not_or] at hi
        exact h.support_red i hi.2.2
      · intro i; exact h.red_nonneg i
      · intro i
        by_cases hit : i = t
        · subst hit
          rw [upd_same]
          by_cases htf : i = f
          · subst htf
            rw [hg, upd_same]
            have := h.red_le_alloc i
            linarith
          · rw [hg, upd_other _ _ _ _ htf]
            have := h.red_le_alloc i
            linarith
        · rw [upd_other _ _ _ _ hit]
          by_cases hif : i = f
          · subst hif
            rw [hg, upd_same]
            linarith [h.red_nonneg i]
          · rw [hg, upd_other _ _ _ _ hif]
            exact h.red_le_alloc i
      · rw [sum_upd_of_support g (insert f s.dom) t _ hg_supp]
        rw [sum_upd_of_support s.alloc s.dom f _ h.support_alloc, h.sum_alloc]
        ring
      · rw [sum_insert_of_support s.red (insert f s.dom) t, sum_insert_of_support s.red s.dom f h.support_red, h.sum_red]
        intro i hi
        simp only [Finset.mem_insert, not_or] at hi
        exact h.support_red i hi.2

theorem shareInv_redeem (s : ShareState) (investor : String) (amount : Int)
    (h : ShareInv s) : ShareInv (redeem s investor amount).2 := by
  unfold redeem
  by_cases hamt : amount ≤ 0
  · simpa [hamt] using h
  · simp only [hamt, if_false]
    by_cases havail : s.alloc investor - s.red investor < amount
    · simpa [havail] using h
    · simp only [havail, if_false]
      have hpos : 0 < amount := lt_of_not_le hamt
      have hav : amount ≤ s.alloc investor - s.red investor := le_of_not_lt havail
      refine ⟨?_, ?_, ?_, ?_, ?_, ?_⟩
      all_goals dsimp only
      · intro i hi
        simp only [Finset.mem_insert, not_or] at hi
        exact h.support_alloc i hi.2
      · intro i hi
        simp only [Finset.mem_insert, not_or] at hi
        rw [upd_other _ _ _ _ hi.1]
        exact h.support_red i hi.2
      · intro i
        by_cases hik : i = investor
        · subst hik
          rw [upd_same]
          linarith [h.red_nonneg i]
        · rw [upd_other _ _ _ _ hik]
          exact h.red_nonneg i
      · intro i
        by_cases hik : i = investor
        · subst hik
          rw [upd_same]
          linarith
        · rw [upd_other _ _ _ _ hik]
          exact h.red_le_alloc i
      · rw [sum_insert_of_support s.alloc s.dom investor h.support_alloc, h.sum_alloc]
      · rw [sum_upd_of_support s.red s.dom investor _ h.support_red, h.sum_red]
        ring

theorem shareInv_applyOp (s : ShareState) (op : ShareOp) (h : ShareInv s) :
    ShareInv (applyShareOp s op) := by
  cases op with
  | allocOp investor amount => exact shareInv_allocate s investor amount h
  | transferOp f t amount => exact shareInv_transfer s f t amount h
  | redeemOp investor amount => exact shareInv_redeem s investor amount h

theorem shareInv_run (ops : List ShareOp) : ShareInv (runShare ops) := by
  rw [runShare]
  induction ops using List.reverseRecOn with
  | nil => exact shareInv_empty
  | append_singleton ops op ih =>
    rw [List.foldl_append, List.foldl_cons, List.foldl_nil]
    exact shareInv_applyOp _ op ih

end InvestorShare

/-- C1: for every sequence of allocate/transfer/redeem calls on one invoice
starting from empty storage, the written per-investor allocation cells sum to
`total_allocated`, the written redemption cells sum to `total_claimed`
(all unwritten cells read 0), and every investor's redeemed amount is bounded
by the allocated amount. -/
theorem C1_share_ledger_conservation (ops : List InvestorShare.ShareOp) :
    (∀ i, i ∉ (InvestorShare.runShare ops).dom →
      (InvestorShare.runShare ops).alloc i = 0 ∧ (InvestorShare.runShare ops).red i = 0)
    ∧ (∑ i ∈ (InvestorShare.runShare ops).dom, (InvestorShare.runShare ops).alloc i)
        = InvestorShare.total_allocated (InvestorShare.runShare ops)
    ∧ (∑ i ∈ (InvestorShare.runShare ops).dom, (InvestorShare.runShare ops).red i)
        = InvestorShare.total_claimed (InvestorShare.runShare ops)
    ∧ ∀ i, (InvestorShare.runShare ops).red i ≤ (InvestorShare.runShare ops).alloc i := by
  have h := InvestorShare.shareInv_run ops
  exact ⟨fun i hi => ⟨h.support_alloc i hi, h.support_red i hi⟩, h.sum_alloc, h.sum_red,
    h.red_le_alloc⟩

/-- C5: after allocating 100 to investor A and redeeming 60, a transfer of 50
from A to B fails (available is 40) and leaves every stored value unchanged. -/
theorem C5_transfer_rejects_over_redemption :
    InvestorShare.transfer
        (InvestorShare.runShare
          [InvestorShare.ShareOp.allocOp "A" 100, InvestorShare.ShareOp.redeemOp "A" 60])
        "A" "B" 50
      = (false,
          InvestorShare.runShare
            [InvestorShare.ShareOp.allocOp "A" 100, InvestorShare.ShareOp.redeemOp "A" 60])
    ∧ (InvestorShare.runShare
        [InvestorShare.ShareOp.allocOp "A" 100, InvestorShare.ShareOp.redeemOp "A" 60]).alloc "A"
        = 100
    ∧ (InvestorShare.runShare
        [InvestorShare.ShareOp.allocOp "A" 100, InvestorShare.ShareOp.redeemOp "A" 60]).red "A"
        = 60
    ∧ (InvestorShare.runShare
        [InvestorShare.ShareOp.allocOp "A" 100, InvestorShare.ShareOp.redeemOp "A" 60]).alloc "B"
        = 0
    ∧ InvestorShare.total_allocated
        (InvestorShare.runShare
          [InvestorShare.ShareOp.allocOp "A" 100, InvestorShare.ShareOp.redeemOp "A" 60]) = 100
    ∧ InvestorShare.total_claimed
        (InvestorShare.runShare
          [InvestorShare.ShareOp.allocOp "A" 100, InvestorShare.ShareOp.redeemOp "A" 60]) = 60 := by
  refine ⟨?_, by decide, by decide, by decide, by decide, by decide⟩
  rfl

namespace RegistryV2

/-- Storage of `ReceivableRegistryV2.py`: the three key spaces
`reg:inv:`, `reg:share:`, `reg:status:` keyed by invoice id, with ""
standing for the absent-key sentinel. -/
structure RegState where
  invoice : String → String
  share : String → String
  status : String → String

/-- Empty registry storage. -/
def RegState.empty : RegState :=
  { invoice := fun _ => "", share := fun _ => "", status := fun _ => "" }

/-- The constant `ALLOWED_STATUSES` of the source module. -/
def ALLOWED_STATUSES : List String :=
  ["CREATED", "VERIFIED", "ACTIVE", "SETTLED", "CANCELLED"]

/-- Embeds `_status_allowed(status)`: a linear scan comparing each allowed
status for equality. -/
def statusAllowed (status : String) : Bool :=
  ALLOWED_STATUSES.any fun s => s == status

/-- Embeds `register_invoice(id, invoice_contract_hash)`. -/
def register_invoice (s : RegState) (id invoice_contract_hash : String) : Bool × RegState :=
  if s.invoice id ≠ "" then (false, s)
  else
    (true,
      { s with
        invoice := upd s.invoice id invoice_contract_hash
        status := upd s.status id "CREATED" })

/-- Embeds `attach_investor_share(id, share_contract_hash)`. -/
def attach_investor_share (s : RegState) (id share_contract_hash : String) : Bool × RegState :=
  if s.invoice id = "" then (false, s)
  else (true, { s with share := upd s.share id share_contract_hash })

/-- Embeds `set_status(id, status)`. -/
def set_status (s : RegState) (id status : String) : Bool × RegState :=
  if statusAllowed status then
    if s.invoice id = "" then (false, s)
    else (true, { s with status := upd s.status id status })
  else (false, s)

/-- Embeds `settle(id)`: the guard chain reads the current status and
transitions to SETTLED only from ACTIVE or VERIFIED. -/
def settle (s : RegState) (id : String) : Bool × RegState :=
  let current := s.status id
  if current = "" then (false, s)
  else if current = "SETTLED" ∨ current = "CANCELLED" then (false, s)
  else if ¬(current = "ACTIVE" ∨ current = "VERIFIED") then (false, s)
  else (true, { s with status := upd s.status id "SETTLED" })

/-- Embeds the getter `get_status(id)`. -/
def get_status (s : RegState) (id : String) : String := s.status id

theorem settle_eq (s : RegState) (id : String) :
    settle s id =
      if s.status id = "ACTIVE" ∨ s.status id = "VERIFIED" then
        (true, { s with status := upd s.status id "SETTLED" })
      else (false, s) := by
  unfold settle
  by_cases hA : s.status id = "ACTIVE"
  · simp [hA]
  · by_cases hV : s.status id = "VERIFIED"
    · simp [hV]
    · simp [hA, hV]

/-- One call against the registry. -/
inductive RegOp where
  | registerOp (id invoice_contract_hash : String)
  | attachOp (id share_contract_hash : String)
  | setStatusOp (id status : String)
  | settleOp (id : String)

/-- Applies one registry call, keeping only the post-state. -/
def applyRegOp (s : RegState) (op : RegOp) : RegState :=
  match op with
  | .registerOp id h => (register_invoice s id h).2
  | .attachOp id h => (attach_investor_share s id h).2
  | .setStatusOp id st => (set_status s id st).2
  | .settleOp id => (settle s id).2

/-- Runs a sequence of registry calls from empty storage. -/
def runReg (ops : List RegOp) : RegState :=
  ops.foldl applyRegOp RegState.empty

/-- Every non-empty stored status passes the `_status_allowed` check. -/
def StatusInv (s : RegState) : Prop :=
  ∀ id, s.status id ≠ "" → statusAllowed (s.status id) = true

theorem statusInv_empty : StatusInv RegState.empty := by
  intro id h
  simp [RegState.empty] at h

theorem statusInv_applyOp (s : RegState) (op : RegOp) (h : StatusInv s) :
    StatusInv (applyRegOp s op) := by
  cases op with
  | registerOp id hash =>
    dsimp only [applyRegOp]
    unfold register_invoice
    by_cases hreg : s.invoice id ≠ ""
    · simpa [hreg] using h
    · simp only [hreg, if_false, if_true]
      intro id0 hne
      dsimp only at hne ⊢
      by_cases hid : id0 = id
      · subst hid
        rw [upd_same]
        decide
      · rw [upd_other _ _ _ _ hid] at hne ⊢
        exact h id0 hne
  | attachOp id hash =>
    dsimp only [applyRegOp]
    unfold attach_investor_share
    by_cases hreg : s.invoice id = ""
    · simpa [hreg] using h
    · simp only [hreg, if_false]
      exact h
  | setStatusOp id st =>
    dsimp only [applyRegOp]
    unfold set_status
    by_cases hall : statusAllowed st
    · simp only [hall, if_true]
      by_cases hreg : s.invoice id = ""
      · simpa [hreg] using h
      · simp only [hreg, if_false]
        intro id0 hne
        dsimp only at hne ⊢
        by_cases hid : id0 = id
        · subst hid
          rw [upd_same]
          exact hall
        · rw [upd_other _ _ _ _ hid] at hne ⊢
          exact h id0 hne
    · simpa [hall] using h
  | settleOp id =>
    dsimp only [applyRegOp]
    rw [settle_eq]
    by_cases hcond : s.status id = "ACTIVE" ∨ s.status id = "VERIFIED"
    · simp only [hcond, if_true]
      intro id0 hne
      dsimp only at hne ⊢
      by_cases hid : id0 = id
      · subst hid
        rw [upd_same]
        decide
      · rw [upd_other _ _ _ _ hid] at hne ⊢
        exact h id0 hne
    · simpa [hcond] using h

theorem statusInv_run (ops : List RegOp) : StatusInv (runReg ops) := by
  rw [runReg]
  induction ops using List.reverseRecOn with
  | nil => exact statusInv_empty
  | append_singleton ops op ih =>
    rw [List.foldl_append, List.foldl_cons, List.foldl_nil]
    exact statusInv_applyOp _ op ih

end RegistryV2

/-- C2: `settle(id)` succeeds and writes SETTLED exactly when the stored
status is ACTIVE or VERIFIED; from CREATED it fails leaving the state
untouched, and a second settle after a successful one fails. -/
theorem C2_settle_state_machine (s : RegistryV2.RegState) (id : String) :
    ((RegistryV2.settle s id).1 = true ↔
      (s.status id = "ACTIVE" ∨ s.status id = "VERIFIED"))
    ∧ ((RegistryV2.settle s id).1 = true →
        RegistryV2.get_status (RegistryV2.settle s id).2 id = "SETTLED")
    ∧ (s.status id = "CREATED" → RegistryV2.settle s id = (false, s))
    ∧ ((RegistryV2.settle s id).1 = true →
        (RegistryV2.settle (RegistryV2.settle s id).2 id).1 = false) := by
  rw [RegistryV2.settle_eq]
  by_cases hcond : s.status id = "ACTIVE" ∨ s.status id = "VERIFIED"
  · refine ⟨by simp [hcond], ?_, ?_, ?_⟩
    · intro _
      simp only [hcond, if_true]
      simp [RegistryV2.get_status, upd_same]
    · intro hc
      rcases hcond with hA | hV
      · rw [hc] at hA; exact absurd hA (by decide)
      · rw [hc] at hV; exact absurd hV (by decide)
    · intro _
      simp only [hcond, if_true]
      rw [RegistryV2.settle_eq]
      have hset : (upd s.status id "SETTLED") id = "SETTLED" := upd_same _ _ _
      simp [hset]
  · refine ⟨by simp [hcond], by simp [hcond], ?_, by simp [hcond]⟩
    intro _
    simp [hcond]

/-- Example registry run used to witness C2 and C10: one invoice registered
and then moved to ACTIVE. -/
def regRunExample : RegistryV2.RegState :=
  RegistryV2.runReg
    [RegistryV2.RegOp.registerOp "INV-1" "0xaaa",
     RegistryV2.RegOp.setStatusOp "INV-1" "ACTIVE"]

/-- C2 witness: the state machine theorem applied to a concrete ACTIVE invoice. -/
theorem C2_settle_state_machine_witness :
    ((RegistryV2.settle regRunExample "INV-1").1 = true ↔
      (regRunExample.status "INV-1" = "ACTIVE" ∨ regRunExample.status "INV-1" = "VERIFIED"))
    ∧ ((RegistryV2.settle regRunExample "INV-1").1 = true →
        RegistryV2.get_status (RegistryV2.settle regRunExample "INV-1").2 "INV-1" = "SETTLED")
    ∧ (regRunExample.status "INV-1" = "CREATED" →
        RegistryV2.settle regRunExample "INV-1" = (false, regRunExample))
    ∧ ((RegistryV2.settle regRunExample "INV-1").1 = true →
        (RegistryV2.settle (RegistryV2.settle regRunExample "INV-1").2 "INV-1").1 = false) :=
  C2_settle_state_machine regRunExample "INV-1"

/-- C10: in every state reachable from empty storage, a non-empty
`get_status` value passes `_status_allowed`, i.e. is one of the five
allowed statuses. -/
theorem C10_status_vocabulary (ops : List RegistryV2.RegOp) (id : String)
    (h : RegistryV2.get_status (RegistryV2.runReg ops) id ≠ "") :
    RegistryV2.statusAllowed (RegistryV2.get_status (RegistryV2.runReg ops) id) = true :=
  RegistryV2.statusInv_run ops id h

/-- C10 witness: a freshly registered invoice has the non-empty allowed
status CREATED. -/
theorem C10_status_vocabulary_witness :
    RegistryV2.get_status
        (RegistryV2.runReg [RegistryV2.RegOp.registerOp "INV-1" "0xaaa"]) "INV-1" ≠ ""
    ∧ RegistryV2.statusAllowed
        (RegistryV2.get_status
          (RegistryV2.runReg [RegistryV2.RegOp.registerOp "INV-1" "0xaaa"]) "INV-1") = true :=
  ⟨by decide, C10_status_vocabulary [RegistryV2.RegOp.registerOp "INV-1" "0xaaa"] "INV-1" (by decide)⟩

namespace DDRegistry

/-- Invoice-level storage of `DDRegistry.py`: the cells written by
`set_invoice_dd` under `dd:inv:<id>:status`, `:hash`, `:bl`, `:po`, `:ins`,
with "" standing for the absent-key sentinel. -/
structure DDState where
  invoiceDocsStatus : String → String
  invoiceDocHash : String → String
  invoiceHasBl : String → String
  invoiceHasPo : String → String
  invoiceHasIns : String → String

/-- Empty due-diligence storage. -/
def DDState.empty : DDState :=
  { invoiceDocsStatus := fun _ => ""
    invoiceDocHash := fun _ => ""
    invoiceHasBl := fun _ => ""
    invoiceHasPo := fun _ => ""
    invoiceHasIns := fun _ => "" }

/-- Embeds `set_invoice_dd(invoice_id, docs_status, doc_bundle_hash, has_bl, has_po, has_insurance)`. -/
def set_invoice_dd (s : DDState) (invoice_id docs_status doc_bundle_hash : String)
    (has_bl has_po has_insurance : Bool) : Bool × DDState :=
  (true,
    { invoiceDocsStatus := upd s.invoiceDocsStatus invoice_id docs_status
      invoiceDocHash := upd s.invoiceDocHash invoice_id doc_bundle_hash
      invoiceHasBl := upd s.invoiceHasBl invoice_id (if has_bl then "1" else "0")
      invoiceHasPo := upd s.invoiceHasPo invoice_id (if has_po then "1" else "0")
      invoiceHasIns := upd s.invoiceHasIns invoice_id (if has_insurance then "1" else "0") })

/-- Embeds the getter `get_invoice_docs_status(invoice_id)`. -/
def get_invoice_docs_status (s : DDState) (invoice_id : String) : String :=
  s.invoiceDocsStatus invoice_id

/-- Embeds `is_dd_complete(invoice_id)`: length guard plus a byte-exact
comparison of the first eight characters of the stored status. -/
def is_dd_complete (s : DDState) (invoice_id : String) : Bool :=
  let status := s.invoiceDocsStatus invoice_id
  decide (8 ≤ status.length) && (status.take 8 == "COMPLETE" || status.take 8 == "VERIFIED")

end DDRegistry

/-- C7: `is_dd_complete` is true exactly when the stored status is at least
eight characters long and its first eight characters are COMPLETE or
VERIFIED; in particular a stored COMPLETE or VERIFIED yields true, while a
stored PARTIAL, MISSING, or the absent-key sentinel yields false. -/
theorem C7_dd_completeness_gate (s : DDRegistry.DDState) (invoice_id hash : String)
    (b1 b2 b3 : Bool) :
    (DDRegistry.is_dd_complete s invoice_id = true ↔
      (8 ≤ (DDRegistry.get_invoice_docs_status s invoice_id).length ∧
        ((DDRegistry.get_invoice_docs_status s invoice_id).take 8 = "COMPLETE" ∨
          (DDRegistry.get_invoice_docs_status s invoice_id).take 8 = "VERIFIED")))
    ∧ DDRegistry.is_dd_complete
        (DDRegistry.set_invoice_dd s invoice_id "COMPLETE" hash b1 b2 b3).2 invoice_id = true
    ∧ DDRegistry.is_dd_complete
        (DDRegistry.set_invoice_dd s invoice_id "VERIFIED" hash b1 b2 b3).2 invoice_id = true
    ∧ DDRegistry.is_dd_complete
        (DDRegistry.set_invoice_dd s invoice_id "PARTIAL" hash b1 b2 b3).2 invoice_id = false
    ∧ DDRegistry.is_dd_complete
        (DDRegistry.set_invoice_dd s invoice_id "MISSING" hash b1 b2 b3).2 invoice_id = false
    ∧ DDRegistry.is_dd_complete DDRegistry.DDState.empty invoice_id = false := by
  refine ⟨?_, ?_, ?_, ?_, ?_, ?_⟩
  · unfold DDRegistry.is_dd_complete DDRegistry.get_invoice_docs_status
    simp [Bool.and_eq_true, Bool.or_eq_true, decide_eq_true_eq, beq_iff_eq]
  all_goals
    simp [DDRegistry.is_dd_complete, DDRegistry.set_invoice_dd, DDRegistry.DDState.empty,
      upd_same]
  all_goals decide

/-- C7 witness: the gate theorem applied to empty storage and a concrete
invoice id, bundle hash, and document flags. -/
theorem C7_dd_completeness_gate_witness :
    (DDRegistry.is_dd_complete DDRegistry.DDState.empty "INV-7" = true ↔
      (8 ≤ (DDRegistry.get_invoice_docs_status DDRegistry.DDState.empty "INV-7").length ∧
        ((DDRegistry.get_invoice_docs_status DDRegistry.DDState.empty "INV-7").take 8 = "COMPLETE" ∨
          (DDRegistry.get_invoice_docs_status DDRegistry.DDState.empty "INV-7").take 8 = "VERIFIED")))
    ∧ DDRegistry.is_dd_complete
        (DDRegistry.set_invoice_dd DDRegistry.DDState.empty "INV-7" "COMPLETE" "0xbb" true true false).2
        "INV-7" = true
    ∧ DDRegistry.is_dd_complete
        (DDRegistry.set_invoice_dd DDRegistry.DDState.empty "INV-7" "VERIFIED" "0xbb" true true false).2
        "INV-7" = true
    ∧ DDRegistry.is_dd_complete
        (DDRegistry.set_invoice_dd DDRegistry.DDState.empty "INV-7" "PARTIAL" "0xbb" true true false).2
        "INV-7" = false
    ∧ DDRegistry.is_dd_complete
        (DDRegistry.set_invoice_dd DDRegistry.DDState.empty "INV-7" "MISSING" "0xbb" true true false).2
        "INV-7" = false
    ∧ DDRegistry.is_dd_complete DDRegistry.DDState.empty "INV-7" = false :=
  C7_dd_completeness_gate DDRegistry.DDState.empty "INV-7" "0xbb" true true false

namespace RiskAgent

/-- The constant `base_yield_bps` set in `RiskAgent.__init__`. -/
def base_yield_bps : Int := 300

/-- The constant `risk_spread_bps` set in `RiskAgent.__init__`. -/
def risk_spread_bps : Int := 100

/-- The `high_risk_countries` list of `RiskAgent.evaluate`; empty in the source. -/
def high_risk_countries : List String := []

/-- Result record of `RiskAgent.evaluate` (the free-text rationale, a log
string, carries no further information and is not modelled). -/
structure RiskResult where
  risk_score : Int
  yield_bps : Int

/-- The additive risk-score accumulation of `RiskAgent.evaluate` before
clamping: start at 1, add the amount band, the term band, and the
country flag. Python floor division on the day count is `Int.fdiv`. -/
def rawRiskScore (amount due_date current_time : Int) (debtor_country : String) : Int :=
  let days_until_due := max 0 ((due_date - current_time).fdiv 86400)
  let base : Int := 1
  let afterAmount :=
    if 1000000 < amount then base + 2
    else if 500000 < amount then base + 1
    else base
  let afterTerm :=
    if 90 < days_until_due then afterAmount + 2
    else if 60 < days_until_due then afterAmount + 1
    else afterAmount
  if high_risk_countries.contains debtor_country.toUpper then afterTerm + 1 else afterTerm

/-- Embeds `RiskAgent.evaluate`: clamp the accumulated score into [1, 5]
(min with 5, then max with 1) and derive the yield. -/
def evaluate (amount due_date current_time : Int) (debtor_country : String) : RiskResult :=
  let risk_score := max (min (rawRiskScore amount due_date current_time debtor_country) 5) 1
  { risk_score := risk_score
    yield_bps := base_yield_bps + risk_score * risk_spread_bps }

end RiskAgent

/-- C3: for every invoice metadata, the risk score lies in [1, 5] and the
yield is exactly 300 + risk_score * 100, hence in [400, 800]. -/
theorem C3_risk_score_bounds (amount due_date current_time : Int) (debtor_country : String) :
    1 ≤ (RiskAgent.evaluate amount due_date current_time debtor_country).risk_score
    ∧ (RiskAgent.evaluate amount due_date current_time debtor_country).risk_score ≤ 5
    ∧ (RiskAgent.evaluate amount due_date current_time debtor_country).yield_bps
        = 300 + (RiskAgent.evaluate amount due_date current_time debtor_country).risk_score * 100
    ∧ 400 ≤ (RiskAgent.evaluate amount due_date current_time debtor_country).yield_bps
    ∧ (RiskAgent.evaluate amount due_date current_time debtor_country).yield_bps ≤ 800 := by
  dsimp only [RiskAgent.evaluate, RiskAgent.base_yield_bps, RiskAgent.risk_spread_bps]
  have h1 : 1 ≤ max (min (RiskAgent.rawRiskScore amount due_date current_time debtor_country) 5) 1 :=
    le_max_right _ _
  have h2 : max (min (RiskAgent.rawRiskScore amount due_date current_time debtor_country) 5) 1 ≤ 5 :=
    max_le (min_le_right _ _) (by norm_num)
  exact ⟨h1, h2, rfl, by omega, by omega⟩

namespace BaseAgent

/-- The mock transaction id: "0x" is prepended to 64 zero characters. -/
def zeros64 : String := String.mk (List.replicate 64 '0')

/-- A Python value as far as the agent layer inspects it: the read-only
call envelope carries either the null payload or a dictionary. -/
inductive PyVal where
  | vNone : PyVal
  | vDict : List (String × Int) → PyVal
deriving DecidableEq

/-- Result dictionary returned by `invoke_contract`. -/
structure InvokeResult where
  tx_hash : String
  success : Bool
  message : String
deriving DecidableEq

/-- Result dictionary returned by `call_contract`. -/
structure CallResult where
  success : Bool
  result : PyVal
  message : String
deriving DecidableEq

/-- Embeds `signer_private_key or self.private_key`: Python `or` keeps the
first operand unless it is falsy (absent or the empty string). -/
def pyOrKey : Option String → String → String
  | some k, dflt => if k = "" then dflt else k
  | none, dflt => dflt

/-- Embeds `BaseAgent.invoke_contract`. The raised missing-credential
`ValueError` is the `Except.error` branch; both the live-client branch and
the fallback branch return the synthetic mock result. -/
def invoke_contract (signer_private_key : Option String) (config_private_key : String)
    (rpc_live : Bool) : Except String InvokeResult :=
  let private_key := pyOrKey signer_private_key config_private_key
  if private_key = "" then Except.error "No private key available for signing"
  else if rpc_live then
    Except.ok
      { tx_hash := "0x" ++ zeros64, success := true, message := "Transaction sent (mock mode)" }
  else
    Except.ok
      { tx_hash := "0x" ++ zeros64, success := true
        message := "Mock transaction - Neo libraries not available" }

/-- Embeds `BaseAgent.call_contract`: both branches return the synthetic
success envelope whose `result` key holds the null payload. -/
def call_contract (rpc_live : Bool) : CallResult :=
  if rpc_live then
    { success := true, result := PyVal.vNone
      message := "Mock call - Neo libraries not fully configured" }
  else
    { success := true, result := PyVal.vNone, message := "Mock call" }

/-- The two messages `invoke_contract` can return, both naming mock mode. -/
def mockMessages : List String :=
  ["Transaction sent (mock mode)", "Mock transaction - Neo libraries not available"]

end BaseAgent

/-- C4: `invoke_contract` raises the missing-credential error exactly when
both the signer argument and the configured key are empty; otherwise it
returns success with the zero-filled transaction id and a mock-mode message,
and `call_contract` always returns success with the null result payload. -/
theorem C4_mock_mode_round_trip (sk : Option String) (ck : String) (live : Bool) :
    (BaseAgent.invoke_contract sk ck live
        = Except.error "No private key available for signing"
      ↔ ((sk = none ∨ sk = some "") ∧ ck = ""))
    ∧ (∀ r, BaseAgent.invoke_contract sk ck live = Except.ok r →
        r.success = true ∧ r.tx_hash = "0x" ++ BaseAgent.zeros64
          ∧ r.message ∈ BaseAgent.mockMessages)
    ∧ (¬((sk = none ∨ sk = some "") ∧ ck = "") →
        ∃ r, BaseAgent.invoke_contract sk ck live = Except.ok r)
    ∧ (BaseAgent.call_contract live).success = true
    ∧ (BaseAgent.call_contract live).result = BaseAgent.PyVal.vNone := by
  have hcall : (BaseAgent.call_contract live).success = true
      ∧ (BaseAgent.call_contract live).result = BaseAgent.PyVal.vNone := by
    cases live <;> simp [BaseAgent.call_contract]
  refine ⟨?_, ?_, ?_, hcall.1, hcall.2⟩
  · unfold BaseAgent.invoke_contract BaseAgent.pyOrKey
    match sk with
    | none =>
      by_cases hck : ck = "" <;> cases live <;> simp [hck]
    | some k =>
      by_cases hk : k = ""
      · by_cases hck : ck = "" <;> cases live <;> simp [hk, hck]
      · cases live <;> simp [hk]
  · intro r hr
    unfold BaseAgent.invoke_contract BaseAgent.pyOrKey at hr
    match sk with
    | none =>
      by_cases hck : ck = ""
      · simp [hck] at hr
      · cases live <;> simp [hck] at hr <;>
          simp [← hr, BaseAgent.mockMessages]
    | some k =>
      by_cases hk : k = ""
      · by_cases hck : ck = ""
        · simp [hk, hck] at hr
        · cases live <;> simp [hk, hck] at hr <;>
            simp [← hr, BaseAgent.mockMessages]
      · cases live <;> simp [hk] at hr <;>
          simp [← hr, BaseAgent.mockMessages]
  · intro hcond
    unfold BaseAgent.invoke_contract BaseAgent.pyOrKey
    match sk with
    | none =>
      have hck : ¬ck = "" := fun hc => hcond ⟨Or.inl rfl, hc⟩
      cases live <;> simp [hck]
    | some k =>
      by_cases hk : k = ""
      · have hck : ¬ck = "" := fun hc => hcond ⟨Or.inr (by rw [hk]), hc⟩
        cases live <;> simp [hk, hck]
      · cases live <;> simp [hk]

/-- C4 witness: with every key empty the credential error is raised; with a
signer key present the concrete mock result is classified by the theorem;
the read-only call envelope is the mock one. -/
theorem C4_mock_mode_round_trip_witness :
    BaseAgent.invoke_contract none "" false
        = Except.error "No private key available for signing"
    ∧ ({ tx_hash := "0x" ++ BaseAgent.zeros64, success := true
         message := "Mock transaction - Neo libraries not available" :
            BaseAgent.InvokeResult }.success = true
        ∧ ({ tx_hash := "0x" ++ BaseAgent.zeros64, success := true
             message := "Mock transaction - Neo libraries not available" :
                BaseAgent.InvokeResult }.tx_hash = "0x" ++ BaseAgent.zeros64)
        ∧ ({ tx_hash := "0x" ++ BaseAgent.zeros64, success := true
             message := "Mock transaction - Neo libraries not available" :
                BaseAgent.InvokeResult }.message ∈ BaseAgent.mockMessages))
    ∧ (∃ r, BaseAgent.invoke_contract (some "sk1") "" false = Except.ok r)
    ∧ (BaseAgent.call_contract false).success = true
    ∧ (BaseAgent.call_contract false).result = BaseAgent.PyVal.vNone :=
  ⟨(C4_mock_mode_round_trip none "" false).1.mpr ⟨Or.inl rfl, rfl⟩,
    (C4_mock_mode_round_trip (some "sk1") "" false).2.1 _ rfl,
    (C4_mock_mode_round_trip (some "sk1") "" false).2.2.1 (by decide),
    (C4_mock_mode_round_trip none "" false).2.2.2.1,
    (C4_mock_mode_round_trip none "" false).2.2.2.2⟩

namespace OnboardingAgent

/-- One stored exporter record (the source field `registered_at` is always
written as null). -/
structure ExporterData where
  wallet_address : String
  name : String
  country : String
  registered_at : Option Int
deriving DecidableEq

/-- One stored investor record; the source field named `type` is rendered
here as `investor_type`. -/
structure InvestorData where
  wallet_address : String
  name : String
  investor_type : String
  registered_at : Option Int
deriving DecidableEq

/-- The participants document: the two JSON mappings keyed by wallet
address, modelled as association lists without duplicate keys. -/
structure Participants where
  exporters : List (String × ExporterData)
  investors : List (String × InvestorData)
deriving DecidableEq

/-- Python dictionary assignment `d[k] = v`: replace the existing entry or
append a new one. -/
def insertPair {α : Type} (l : List (String × α)) (k : String) (v : α) : List (String × α) :=
  match l with
  | [] => [(k, v)]
  | (k0, v0) :: rest => if k0 = k then (k, v) :: rest else (k0, v0) :: insertPair rest k v

/-- Result dictionary of `register_exporter`. -/
structure RegExporterResult where
  success : Bool
  message : String
  data : ExporterData
deriving DecidableEq

/-- Result dictionary of `register_investor`. -/
structure RegInvestorResult where
  success : Bool
  message : String
  data : InvestorData
deriving DecidableEq

/-- Embeds `OnboardingAgent.register_exporter`: return the stored record
untouched when the address is already present, otherwise insert and persist. -/
def register_exporter (p : Participants) (wallet_address name country : String) :
    RegExporterResult × Participants :=
  match p.exporters.lookup wallet_address with
  | some existing =>
    ({ success := true, message := "Exporter already registered", data := existing }, p)
  | none =>
    let d : ExporterData :=
      { wallet_address := wallet_address, name := name, country := country
        registered_at := none }
    ({ success := true, message := "Exporter registered successfully", data := d },
      { p with exporters := insertPair p.exporters wallet_address d })

/-- Embeds `OnboardingAgent.register_investor`. -/
def register_investor (p : Participants) (wallet_address name investor_type : String) :
    RegInvestorResult × Participants :=
  match p.investors.lookup wallet_address with
  | some existing =>
    ({ success := true, message := "Investor already registered", data := existing }, p)
  | none =>
    let d : InvestorData :=
      { wallet_address := wallet_address, name := name, investor_type := investor_type
        registered_at := none }
    ({ success := true, message := "Investor registered successfully", data := d },
      { p with investors := insertPair p.investors wallet_address d })

theorem lookup_insertPair_self {α : Type} (l : List (String × α)) (k : String) (v : α) :
    (insertPair l k v).lookup k = some v := by
  induction l with
  | nil => simp [insertPair, List.lookup]
  | cons hd tl ih =>
    obtain ⟨k0, v0⟩ := hd
    by_cases hk : k0 = k
    · subst hk
      simp [insertPair, List.lookup]
    · have hne : (k == k0) = false := by
        simp [Ne.symm hk]
      simp [insertPair, hk, List.lookup, hne, ih]

theorem register_exporter_idem (p : Participants) (wa n1 c1 n2 c2 : String) :
    register_exporter (register_exporter p wa n1 c1).2 wa n2 c2
      = ({ success := true, message := "Exporter already registered"
           data := (register_exporter p wa n1 c1).1.data },
          (register_exporter p wa n1 c1).2) := by
  unfold register_exporter
  cases hl : p.exporters.lookup wa with
  | some e => simp [hl]
  | none => simp [hl, lookup_insertPair_self]

theorem register_investor_idem (p : Participants) (wa n1 t1 n2 t2 : String) :
    register_investor (register_investor p wa n1 t1).2 wa n2 t2
      = ({ success := true, message := "Investor already registered"
           data := (register_investor p wa n1 t1).1.data },
          (register_investor p wa n1 t1).2) := by
  unfold register_investor
  cases hl : p.investors.lookup wa with
  | some e => simp [hl]
  | none => simp [hl, lookup_insertPair_self]

end OnboardingAgent

/-- C6: registering the same wallet address a second time, with possibly
different name and country (or investor type), returns success with the
already-registered message and the record stored by the first call, and
leaves the persisted participants store unchanged; for exporters and for
investors alike. -/
theorem C6_idempotent_registration (p : OnboardingAgent.Participants)
    (wa n1 c1 n2 c2 wi m1 t1 m2 t2 : String) :
    OnboardingAgent.register_exporter
        (OnboardingAgent.register_exporter p wa n1 c1).2 wa n2 c2
      = ({ success := true, message := "Exporter already registered"
           data := (OnboardingAgent.register_exporter p wa n1 c1).1.data },
          (OnboardingAgent.register_exporter p wa n1 c1).2)
    ∧ OnboardingAgent.register_investor
        (OnboardingAgent.register_investor p wi m1 t1).2 wi m2 t2
      = ({ success := true, message := "Investor already registered"
           data := (OnboardingAgent.register_investor p wi m1 t1).1.data },
          (OnboardingAgent.register_investor p wi m1 t1).2) :=
  ⟨OnboardingAgent.register_exporter_idem p wa n1 c1 n2 c2,
    OnboardingAgent.register_investor_idem p wi m1 t1 m2 t2⟩

namespace SettlementAgent

/-- Result dictionary of `SettlementAgent.settle`. -/
structure SettleResult where
  success : Bool
  tx_hash : String
  invoice_id : String
  actual_paid : Int
  final_status : Int
  status_name : String
  message : String
deriving DecidableEq

/-- The `status_names` mapping of `SettlementAgent.settle`, with UNKNOWN
for any numeric status outside 0..4. -/
def status_names (n : Int) : String :=
  if n = 0 then "CREATED"
  else if n = 1 then "LISTED"
  else if n = 2 then "FUNDED"
  else if n = 3 then "SETTLED"
  else if n = 4 then "DEFAULTED"
  else "UNKNOWN"

/-- Python `invoice_data.get("status", 0)`: dictionary lookup with a
default, which on the null payload raises an AttributeError instead. -/
def pyGetStatus : BaseAgent.PyVal → Except String Int
  | BaseAgent.PyVal.vNone =>
    Except.error "AttributeError: NoneType object has no attribute get"
  | BaseAgent.PyVal.vDict entries => Except.ok ((entries.lookup "status").getD 0)

/-- Embeds `SettlementAgent.settle(invoice_id, actual_paid)`: invoke the
settlement operation, re-read the invoice through `call_contract`, take the
envelope value under the `result` key (present in both mock branches, with
the null payload), resolve the status name, and assemble the combined
result. Exceptions propagate as `Except.error`. -/
def settle (config_private_key invoice_id : String) (actual_paid : Int) (rpc_live : Bool) :
    Except String SettleResult := do
  let result ← BaseAgent.invoke_contract none config_private_key rpc_live
  let invoice_result := BaseAgent.call_contract rpc_live
  let invoice_data := invoice_result.result
  let final_status ← pyGetStatus invoice_data
  let status_name := status_names final_status
  Except.ok
    { success := result.success
      tx_hash := result.tx_hash
      invoice_id := invoice_id
      actual_paid := actual_paid
      final_status := final_status
      status_name := status_name
      message := "Invoice settled with status: " ++ status_name }

end SettlementAgent

/-- C8: whenever a signing key is configured, `SettlementAgent.settle`
raises an AttributeError instead of returning the combined result envelope,
because the re-read through `call_contract` yields the mock-mode null
result payload and the status lookup dereferences it. -/
theorem C8_settle_raises_on_mock_payload (ck invoice_id : String) (actual_paid : Int)
    (live : Bool) (h : ck ≠ "") :
    SettlementAgent.settle ck invoice_id actual_paid live
      = Except.error "AttributeError: NoneType object has no attribute get" := by
  unfold SettlementAgent.settle BaseAgent.invoke_contract BaseAgent.pyOrKey
  cases live <;>
    simp [h, BaseAgent.call_contract, SettlementAgent.pyGetStatus, Except.bind]
  all_goals rfl

/-- C8 witness: the AttributeError at a concrete configured key, invoice id
and payment amount, in mock mode. -/
theorem C8_settle_raises_on_mock_payload_witness :
    ("k1" : String) ≠ ""
    ∧ SettlementAgent.settle "k1" "INV-001" 90000 false
        = Except.error "AttributeError: NoneType object has no attribute get" :=
  ⟨by decide, C8_settle_raises_on_mock_payload "k1" "INV-001" 90000 false (by decide)⟩

namespace Contracts

/-- Operations exposed with the `public` decorator by `SimpleStorage.py`. -/
def simpleStorageOps : List String := ["store", "retrieve", "increment", "counter"]

/-- Operations exposed with the `public` decorator by `ReceivableRegistryV1.py`. -/
def receivableRegistryV1Ops : List String := ["register", "get_record"]

/-- Operations exposed with the `public` decorator by `ReceivableRegistryV2.py`. -/
def receivableRegistryV2Ops : List String :=
  ["register_invoice", "attach_investor_share", "set_status", "settle",
   "get_invoice_contract", "get_share_contract", "get_status"]

/-- Operations exposed with the `public` decorator by `InvoiceAsset.py`. -/
def invoiceAssetOps : List String :=
  ["register_invoice", "get_invoice", "update_status", "settle_invoice", "ping",
   "_initialize"]

/-- Operations exposed with the `public` decorator by `InvestorShare.py`. -/
def investorShareOps : List String :=
  ["allocate", "transfer", "redeem", "get_share", "total_allocated", "total_claimed"]

/-- Operations exposed with the `public` decorator by `PlatformFee.py`. -/
def platformFeeOps : List String :=
  ["record_fee", "get_fee_balance", "withdraw", "_deploy"]

/-- Operations exposed with the `public` decorator by `ExporterRegistry.py`. -/
def exporterRegistryOps : List String :=
  ["register_profile", "get_profile", "update_profile", "is_registered",
   "link_invoice", "is_invoice_linked", "ping", "_initialize"]

/-- Operations exposed with the `public` decorator by `ImporterTerms.py`. -/
def importerTermsOps : List String :=
  ["register_importer", "get_importer", "is_importer_registered", "register_terms",
   "update_terms", "get_terms", "get_terms_yield", "get_terms_importer",
   "confirm_payable", "is_confirmed", "get_confirmer", "ping", "_initialize"]

/-- Operations exposed with the `public` decorator by `DDRegistry.py`. -/
def ddRegistryOps : List String :=
  ["set_exporter_dd", "get_exporter_kyc_tier", "get_exporter_dd_merkle",
   "get_exporter_kyc_status", "set_invoice_dd", "get_invoice_docs_status",
   "get_invoice_doc_hash", "has_bill_of_lading", "has_purchase_order",
   "has_insurance", "verify_exporter_dd", "verify_invoice_dd",
   "get_exporter_verifier", "get_invoice_verifier", "is_dd_complete", "ping",
   "_initialize"]

/-- Return value of `ping()` in `InvoiceAsset.py`. -/
def invoiceAssetPing : Int := 1

/-- Return value of `ping()` in `ExporterRegistry.py`. -/
def exporterRegistryPing : Int := 1

/-- Return value of `ping()` in `ImporterTerms.py`. -/
def importerTermsPing : Int := 1

/-- Return value of `ping()` in `DDRegistry.py`. -/
def ddRegistryPing : Int := 1

end Contracts

/-- C9 counterexample: SimpleStorage exposes no `ping` operation, refuting
the claim that every one of the nine programs does. -/
theorem C9_ping_counterexample : "ping" ∉ Contracts.simpleStorageOps := by
  decide

/-- C9 (amended): exactly four of the nine programs — InvoiceAsset,
ExporterRegistry, ImporterTerms, DDRegistry — expose a `ping` operation,
each returning the constant 1; SimpleStorage, ReceivableRegistryV1,
ReceivableRegistryV2, InvestorShare and PlatformFee expose none. -/
theorem C9_ping_surface :
    "ping" ∈ Contracts.invoiceAssetOps ∧ Contracts.invoiceAssetPing = 1
    ∧ "ping" ∈ Contracts.exporterRegistryOps ∧ Contracts.exporterRegistryPing = 1
    ∧ "ping" ∈ Contracts.importerTermsOps ∧ Contracts.importerTermsPing = 1
    ∧ "ping" ∈ Contracts.ddRegistryOps ∧ Contracts.ddRegistryPing = 1
    ∧ "ping" ∉ Contracts.simpleStorageOps
    ∧ "ping" ∉ Contracts.receivableRegistryV1Ops
    ∧ "ping" ∉ Contracts.receivableRegistryV2Ops
    ∧ "ping" ∉ Contracts.investorShareOps
    ∧ "ping" ∉ Contracts.platformFeeOps := by
  refine ⟨?_, rfl, ?_, rfl, ?_, rfl, ?_, rfl, ?_, ?_, ?_, ?_, ?_⟩ <;> decide
